import Mathlib

attribute [local semireducible] Rat.add Rat.mul Rat.sub Rat.inv Rat.ofScientific

/-!
Shallow embedding of the SignalCraft trading core, for checking the
natural-language specification against the code.

Sources embedded:
* src/app/models/position_manager.py  (PositionManager)
* src/app/handlers/strategy_handler.py (StrategyHandler.generate_signals)
* src/app/app.py (websocket_backtest)

Prices, cash and share fractions are modelled as exact rationals; Python's
int() applied to a ratio is ratTrunc (truncation toward zero).  Lean's total
division stands in for Python's division: all claims are settled at nonzero
prices and equity, where the two agree.
-/

inductive OrderSide where
  | buy
  | sell
deriving DecidableEq, Repr

/-- Modelled from the spec: the Position data entity (app/models/position.py is
not part of src/).  Fields and formulas follow spec section 3: unsigned
quantity plus a side, entry/current price, entry time (in days), open flag,
and the sign-adjusted P&L fields maintained by update_pl. -/
structure Position where
  ticker : String
  qty : ℚ
  entry_price : ℚ
  current_price : ℚ
  side : OrderSide
  entry_time : ℤ
  is_open : Bool
  pl : ℚ
  pl_pct : ℚ
deriving DecidableEq, Repr

/-- Modelled from the spec: Position construction at a fill or brokerage sync;
the current price starts at the entry price, P&L at zero, the position open. -/
def mkPosition (ticker : String) (qty : ℚ) (entry_price : ℚ) (side : OrderSide)
    (entry_time : ℤ) : Position :=
  { ticker := ticker, qty := qty, entry_price := entry_price,
    current_price := entry_price, side := side, entry_time := entry_time,
    is_open := true, pl := 0, pl_pct := 0 }

/-- Modelled from the spec: Position.update_pl refreshes the current price and
recomputes pl_pct = (current - entry)/entry sign-adjusted by side, and the
corresponding dollar P&L qty * (current - entry), sign-adjusted. -/
def Position.update_pl (p : Position) (price : ℚ) : Position :=
  let sgn : ℚ := match p.side with
    | OrderSide.buy => 1
    | OrderSide.sell => -1
  { p with current_price := price,
           pl := sgn * p.qty * (price - p.entry_price),
           pl_pct := if p.entry_price = 0 then 0
                     else sgn * (price - p.entry_price) / p.entry_price }

/-- Modelled from the spec: exposure(equity) = |quantity| * current_price / equity. -/
def Position.get_exposure (p : Position) (equity : ℚ) : ℚ :=
  |p.qty| * p.current_price / equity

/-- Python int() applied to a rational: truncation toward zero. -/
def ratTrunc (q : ℚ) : ℤ :=
  Int.tdiv q.num (q.den : ℤ)

/-- The Signal data entity (app/models/signal.py is not part of src/).
Modelled from the spec: strategy id, ticker, price, optional action, strength
score and momentum (None encoded as Option.none). -/
structure Signal where
  strategy : String
  ticker : String
  price : ℚ
  action : Option String
  score : Option ℚ
  momentum : Option ℚ
deriving DecidableEq, Repr

/-- The PositionManager state relevant to the claims
(src/app/models/position_manager.py): the per-ticker position map as an
insertion-ordered association list, the pending-close set, and the simulated
(backtest) ledger fields. -/
structure PM where
  positions : List (String × Position)
  pending_closes : List String
  cash_balance : ℚ
  equity : ℚ
  unrealized_pnl : ℚ
deriving DecidableEq, Repr

def max_position_size : ℚ := 0.08

def max_total_exposure : ℚ := 1.6

def starting_balance : ℚ := 30000

/-- A freshly constructed backtest PositionManager. -/
def initPM : PM :=
  { positions := [], pending_closes := [], cash_balance := starting_balance,
    equity := starting_balance, unrealized_pnl := 0 }

/-- Python dict lookup on the position map. -/
def lookupPos (ps : List (String × Position)) (ticker : String) : Option Position :=
  (ps.find? (fun q => q.1 == ticker)).map (fun q => q.2)

/-- Python dict assignment on the position map (insertion order preserved). -/
def setPos (ps : List (String × Position)) (ticker : String) (p : Position) :
    List (String × Position) :=
  if ps.any (fun q => q.1 == ticker) then
    ps.map (fun q => if q.1 == ticker then (ticker, p) else q)
  else
    ps ++ [(ticker, p)]

/-- Python del on the position map. -/
def delPos (ps : List (String × Position)) (ticker : String) :
    List (String × Position) :=
  ps.filter (fun q => q.1 != ticker)

/-- positions not currently pending close (position_manager.py lines 50-51). -/
def active_positions (pm : PM) : List (String × Position) :=
  pm.positions.filter (fun q => !(pm.pending_closes.contains q.1))

/-- sum of per-position exposures against the given equity. -/
def exposure_sum (ps : List (String × Position)) (equity : ℚ) : ℚ :=
  (ps.map (fun q => q.2.get_exposure equity)).sum

/-- get_backtest_account_info (position_manager.py lines 177-185), the fields
the claims use. -/
structure AccountInfo where
  equity : ℚ
  buying_power : ℚ
deriving DecidableEq, Repr

def get_backtest_account_info (pm : PM) : AccountInfo :=
  { equity := pm.equity, buying_power := pm.cash_balance }

/-- calculate_target_position (position_manager.py lines 34-95), with the
backtest-mode account snapshot (get_account_info dispatches to
get_backtest_account_info when is_backtest).  Returns (target shares, allow). -/
def calculate_target_position (pm : PM) (ticker : String) (price : ℚ)
    (side : OrderSide) (target_pct : Option ℚ) : ℤ × Bool :=
  let equity := (get_backtest_account_info pm).equity
  let total_exposure := exposure_sum (active_positions pm) equity
  if side = OrderSide.buy ∧ max_total_exposure ≤ total_exposure then (0, false)
  else
    let position_size := target_pct.getD max_position_size
    let target_position_value := equity * position_size
    match lookupPos (active_positions pm) ticker with
    | some current_position =>
      let current_exposure := current_position.get_exposure equity
      if side = OrderSide.buy ∧ position_size ≤ current_exposure then (0, false)
      else if side = OrderSide.sell ∧ current_position.qty = 0 then (0, false)
      else if current_position.pl_pct < -0.02 then (0, false)
      else
        let remaining_size := target_position_value - current_position.qty * price
        (ratTrunc (remaining_size / price), true)
    | none =>
      (ratTrunc (target_position_value / price), decide (side = OrderSide.buy))

/-- close_position_backtest (position_manager.py lines 150-161): debits
qty * signal price from cash, zeroes and closes the position object, and
deletes the ticker from the map; returns the mutated position. -/
def close_position_backtest (pm : PM) (ticker : String) (signal_price : ℚ) :
    PM × Option Position :=
  match lookupPos pm.positions ticker with
  | none => (pm, none)
  | some position =>
    let total_cost := position.qty * signal_price
    let position' := { position with qty := 0, is_open := false }
    ({ pm with cash_balance := pm.cash_balance - total_cost,
               positions := delPos pm.positions ticker }, some position')

/-- should_close_position (position_manager.py lines 187-238) in backtest mode.
Python truthiness of the optional score/momentum floats is embedded exactly:
None and 0 are falsy. -/
def should_close_position (pm : PM) (ticker : String) (signal : Signal)
    (now : ℤ) : Bool :=
  match lookupPos pm.positions ticker with
  | none => false
  | some position =>
    let equity := (get_backtest_account_info pm).equity
    let total_exposure := exposure_sum pm.positions equity
    let score_truthy := match signal.score with
      | none => false
      | some s => decide (s ≠ 0)
    let score := signal.score.getD 0
    let momentum_truthy := match signal.momentum with
      | none => false
      | some m => decide (m ≠ 0)
    let momentum := signal.momentum.getD 0
    let r1 := decide (position.pl_pct < -0.04)
    let r2 := score_truthy &&
      ((decide (position.side = OrderSide.buy) && decide (score < 0.4)) ||
       (decide (position.side = OrderSide.sell) && decide (0.6 < score)))
    let r3 := momentum_truthy &&
      ((decide (position.side = OrderSide.buy) && decide (momentum < -0.02)) ||
       (decide (position.side = OrderSide.sell) && decide (0.02 < momentum)))
    let r4 := score_truthy && decide (max_total_exposure < total_exposure) &&
      ((decide (position.side = OrderSide.buy) && decide (score < 0.5)) ||
       (decide (position.side = OrderSide.sell) && decide (0.5 < score)))
    let r5 := decide (5 < now - position.entry_time) && decide (|position.pl_pct| < 0.01)
    r1 || r2 || r3 || r4 || r5

/-- the order dict fed to update_positions_backtest. -/
structure BtOrder where
  ticker : String
  qty : ℚ
  price : ℚ
  side : OrderSide
deriving DecidableEq, Repr

/-- update_positions_backtest (position_manager.py lines 335-367).  Note the
BUY branch debits total_cost twice (once for the funds check, again when the
fill is applied) and that the freshly constructed Position replaces any
existing entry for the ticker. -/
def update_positions_backtest (pm : PM) (order : Option BtOrder) (now : ℤ) : PM :=
  match order with
  | none => pm
  | some o =>
    let total_cost := o.qty * o.price
    match o.side with
    | OrderSide.buy =>
      if pm.cash_balance - total_cost < 0 then pm
      else
        let position := (mkPosition o.ticker o.qty o.price OrderSide.buy now).update_pl o.price
        let position := { position with is_open := true }
        { pm with cash_balance := pm.cash_balance - total_cost - total_cost,
                  positions := setPos pm.positions o.ticker position }
    | OrderSide.sell =>
      match lookupPos pm.positions o.ticker with
      | none => pm
      | some _ =>
        let position := (mkPosition o.ticker o.qty o.price OrderSide.sell now).update_pl o.price
        let position := { position with is_open := false }
        { pm with cash_balance := pm.cash_balance + total_cost,
                  positions := setPos pm.positions o.ticker position }

/-- update_backtest_account_position_values (position_manager.py lines
370-385): refreshes each updated position's P&L, accumulates it into
unrealized_pnl, then recomputes equity = cash + unrealized_pnl. -/
def update_backtest_account_position_values (pm : PM)
    (batch : List (String × ℚ)) : PM :=
  let pm1 := batch.foldl (fun acc tp =>
    match lookupPos acc.positions tp.1 with
    | none => acc
    | some p =>
      let p' := p.update_pl tp.2
      { acc with positions := setPos acc.positions tp.1 p',
                 unrealized_pnl := acc.unrealized_pnl + p'.pl }) pm
  { pm1 with equity := pm1.cash_balance + pm1.unrealized_pnl }

/-- Sum of the unrealized P&L of the positions currently held in the map. -/
def total_unrealized_pl (pm : PM) : ℚ :=
  (pm.positions.map (fun q => q.2.pl)).sum

/-! ## Concrete states used to evaluate the claims -/

/-- An open long position: 1 share of AAPL entered at 10. -/
def posC1 : Position :=
  { ticker := "AAPL", qty := 1, entry_price := 10, current_price := 10,
    side := OrderSide.buy, entry_time := 0, is_open := true, pl := 0, pl_pct := 0 }

/-- A simulated account holding posC1 with 29990 cash. -/
def pmC1 : PM :=
  { positions := [("AAPL", posC1)], pending_closes := [], cash_balance := 29990,
    equity := 29990, unrealized_pnl := 0 }

/-- An open long position: 10 shares of AAPL entered at 4, last marked at 5. -/
def posC2 : Position :=
  { ticker := "AAPL", qty := 10, entry_price := 4, current_price := 5,
    side := OrderSide.buy, entry_time := 0, is_open := true, pl := 10, pl_pct := 0.25 }

/-- A simulated account holding posC2 with 1000 cash. -/
def pmC2 : PM :=
  { positions := [("AAPL", posC2)], pending_closes := [], cash_balance := 1000,
    equity := 1050, unrealized_pnl := 10 }

/-- An open long position: 10 shares of AAPL entered at 100. -/
def posC6 : Position :=
  { ticker := "AAPL", qty := 10, entry_price := 100, current_price := 100,
    side := OrderSide.buy, entry_time := 0, is_open := true, pl := 0, pl_pct := 0 }

/-- A simulated account holding posC6 with 30000 cash. -/
def pmC6 : PM :=
  { positions := [("AAPL", posC6)], pending_closes := [], cash_balance := 30000,
    equity := 30000, unrealized_pnl := 0 }

/-- A further BUY fill of 5 AAPL shares at 110 on top of posC6. -/
def ordC6 : BtOrder :=
  { ticker := "AAPL", qty := 5, price := 110, side := OrderSide.buy }

/-- A signal whose strength score is exactly 0 (a score inside [0,1] and
below 0.4) and whose momentum is absent. -/
def sigC7 : Signal :=
  { strategy := "stop-loss", ticker := "AAPL", price := 100, action := none,
    score := some 0, momentum := none }

/-! ## C1 -/

/-- C1: refuted on the code.  update_backtest_account_position_values
accumulates unrealized_pnl across batches without resetting it, so after a
second identical price batch the simulated equity equals cash + 4 while the
total unrealized P&L of the held positions is 2: the equity no longer equals
cash balance plus the unrealized P&L of the currently held positions. -/
theorem C1_equity_double_counts_pnl :
    (update_backtest_account_position_values
      (update_backtest_account_position_values pmC1 [("AAPL", 12)])
      [("AAPL", 12)]).equity
      = (update_backtest_account_position_values
          (update_backtest_account_position_values pmC1 [("AAPL", 12)])
          [("AAPL", 12)]).cash_balance + 4 ∧
    total_unrealized_pl (update_backtest_account_position_values
      (update_backtest_account_position_values pmC1 [("AAPL", 12)])
      [("AAPL", 12)]) = 2 ∧
    (update_backtest_account_position_values
      (update_backtest_account_position_values pmC1 [("AAPL", 12)])
      [("AAPL", 12)]).equity
      ≠ (update_backtest_account_position_values
          (update_backtest_account_position_values pmC1 [("AAPL", 12)])
          [("AAPL", 12)]).cash_balance
        + total_unrealized_pl (update_backtest_account_position_values
            (update_backtest_account_position_values pmC1 [("AAPL", 12)])
            [("AAPL", 12)]) := by
  refine ⟨by decide, by decide, by decide⟩

/-! ## C2 -/

/-- C2: refuted on the code in the long case.  Closing the long position posC2
(10 shares) at signal price 5 does delete the ticker from the map, but
close_position_backtest debits quantity * close_price from cash
unconditionally, so cash falls from 1000 to 950 where the claim requires it
to rise to 1050. -/
theorem C2_close_long_decreases_cash :
    lookupPos (close_position_backtest pmC2 "AAPL" 5).1.positions "AAPL" = none ∧
    (close_position_backtest pmC2 "AAPL" 5).1.cash_balance = 950 ∧
    (close_position_backtest pmC2 "AAPL" 5).1.cash_balance ≠ pmC2.cash_balance + 10 * 5 := by
  refine ⟨by decide, by decide, by decide⟩

/-! ## C4 -/

/-- C4: counterexample.  With a fresh simulated account (equity 30000, no
positions) a BUY request at price 3000 yields target value 2400 < price, and
calculate_target_position returns share count 0 together with allow = true,
which the claim says never happens. -/
theorem C4_counterexample :
    calculate_target_position initPM "AAPL" 3000 OrderSide.buy none = (0, true) := by
  decide

/-! ## C5 -/

/-- C5: counterexample.  A SELL request for a ticker with no existing position
is refused (allow = false) but does not return exactly (0, false): with equity
30000 and price 50 the refusal carries the computed target share count 48. -/
theorem C5_counterexample :
    calculate_target_position initPM "AAPL" 50 OrderSide.sell none = (48, false) ∧
    calculate_target_position initPM "AAPL" 50 OrderSide.sell none ≠ (0, false) := by
  refine ⟨by decide, by decide⟩

/-! ## C6 -/

/-- C6: refuted on the code.  Applying a further BUY fill of 5 shares at 110
(at day 7) to the open 10-share position entered at 100 (day 0) does not add
shares: update_positions_backtest constructs a fresh Position from the order
and stores it over the old one, so the resulting quantity is 5 (not 15), the
entry price is 110 (not the retained 100) and the entry time is 7 (not the
retained 0); cash is also debited twice (1100 for a 550 purchase). -/
theorem C6_resize_replaces_position :
    lookupPos (update_positions_backtest pmC6 (some ordC6) 7).positions "AAPL"
      = some { ticker := "AAPL", qty := 5, entry_price := 110, current_price := 110,
               side := OrderSide.buy, entry_time := 7, is_open := true,
               pl := 0, pl_pct := 0 } ∧
    (lookupPos (update_positions_backtest pmC6 (some ordC6) 7).positions "AAPL").map
        Position.qty ≠ some (10 + 5) ∧
    (update_positions_backtest pmC6 (some ordC6) 7).cash_balance = 30000 - 550 - 550 := by
  refine ⟨by decide, by decide, by decide⟩

/-! ## C7 -/

/-- C7: refuted on the code at score 0.  For the open long posC6 and a signal
whose strength score is exactly 0 (inside [0,1] and below 0.4),
should_close_position returns false: the Python guard `if technical_score:`
treats the float 0.0 as falsy and skips the weak-score close rule, and no
other close rule fires (flat P&L, no momentum, zero age). -/
theorem C7_zero_score_not_closed :
    should_close_position pmC6 "AAPL" sigC7 0 = false := by
  decide

/-! ## Live-mode PositionManager operations (C9) -/

/-- A brokerage position record as returned by get_all_positions.  The source
reads both a `ticker` field (check_position_available) and a `symbol` field
(update_positions). -/
structure AlpacaPosition where
  symbol : String
  ticker : String
  qty : ℚ
  qty_available : ℚ
  current_price : ℚ
  avg_entry_price : ℚ
deriving DecidableEq, Repr

/-- A brokerage order as returned by close_position. -/
structure BrokerOrder where
  status : String
deriving DecidableEq, Repr

/-- A brokerage account snapshot. -/
structure BrokerAccount where
  equity : ℚ
deriving DecidableEq, Repr

/-- The brokerage capability: each call either raises (Except.error) or
returns a value. -/
structure TradingClient where
  get_all_positions : Except Unit (List AlpacaPosition)
  get_account : Except Unit BrokerAccount
  close_position_call : String → Except Unit BrokerOrder

/-- check_position_available (position_manager.py lines 97-116): any raise is
caught and reported as unavailable. -/
def check_position_available (client : TradingClient) (ticker : String) : Bool :=
  match client.get_all_positions with
  | Except.error _ => false
  | Except.ok positions =>
    match positions.find? (fun p => p.ticker == ticker) with
    | some p => !(p.qty_available == 0)
    | none => false

/-- close_position in live mode (position_manager.py lines 125-148): returns
the accepted order (marking the ticker pending close) or None, catching any
raise from the brokerage call. -/
def close_position_live (client : TradingClient) (pm : PM) (ticker : String) :
    Option BrokerOrder × PM :=
  if pm.pending_closes.contains ticker then (none, pm)
  else if !(check_position_available client ticker) then (none, pm)
  else
    match client.close_position_call ticker with
    | Except.error _ => (none, pm)
    | Except.ok order =>
      if order.status = "accepted" then
        (some order, { pm with pending_closes := ticker :: pm.pending_closes })
      else (none, pm)

/-- The position-map rewrite performed by update_positions (position_manager.py
lines 281-303) once get_all_positions has returned: update or create each
brokerage position, then drop tickers the brokerage no longer reports. -/
def sync_positions (pm : PM) (alpaca_positions : List AlpacaPosition) (now : ℤ) : PM :=
  let pm1 := alpaca_positions.foldl (fun acc p =>
    let side := if 0 < p.qty then OrderSide.buy else OrderSide.sell
    let pos0 := match lookupPos acc.positions p.symbol with
      | some existing => existing
      | none => mkPosition p.symbol p.qty p.avg_entry_price side now
    let pos1 := { pos0 with qty := p.qty, entry_price := p.avg_entry_price }
    { acc with positions := setPos acc.positions p.symbol (pos1.update_pl p.current_price) }) pm
  let current_tickers := alpaca_positions.map (fun p => p.symbol)
  { pm1 with positions := pm1.positions.filter (fun q => current_tickers.contains q.1) }

/-- update_positions in live mode (position_manager.py lines 269-333): the
whole body is wrapped in a try/except that returns the empty dict.  If
get_all_positions raises nothing has been mutated; if the later get_account
call raises, the position-map rewrite has already happened and is retained.
The final branch guards the exposure computation, which in Python divides by
the account equity (a raise there is caught by the same except). -/
def update_positions_live (client : TradingClient) (pm : PM) (now : ℤ) :
    PM × List (String × Position) :=
  match client.get_all_positions with
  | Except.error _ => (pm, [])
  | Except.ok alpaca_positions =>
    let pm1 := sync_positions pm alpaca_positions now
    match client.get_account with
    | Except.error _ => (pm1, [])
    | Except.ok account =>
      if account.equity = 0 ∧ active_positions pm1 ≠ [] then (pm1, [])
      else (pm1, pm1.positions)

/-! ## Backtest start concurrency (C3) -/

/-- Reply sent to the websocket client by the start-request handler. -/
inductive BtReply where
  | started
  | already_running
deriving DecidableEq, Repr

/-- State of the backtest orchestrator as seen by websocket_backtest:
the active-run set running_backtests, the queue of tasks created with
asyncio.create_task but not yet given a turn by the event loop, and the
replies sent so far. -/
structure BtState where
  running_backtests : List String
  spawned : List String
  replies : List BtReply
deriving DecidableEq, Repr

/-- One websocket_backtest handler turn for a start request
(src/app/app.py lines 156-175): if the ticker is already in the active-run
set, reply already_running and start nothing; otherwise create the backtest
task and reply that the backtest started.  The created task does not run
inside this turn (asyncio.create_task only schedules it). -/
def handle_start_request (st : BtState) (ticker : String) : BtState :=
  if st.running_backtests.contains ticker then
    { st with replies := st.replies ++ [BtReply.already_running] }
  else
    { st with spawned := st.spawned ++ [ticker],
              replies := st.replies ++ [BtReply.started] }

/-- Modelled from the spec: the body of start_backtest_for_ticker (the backtest
orchestrator is not part of src/) — "On acceptance, the ticker is added to the
active set".  This models the earliest event at which the spawned task can
insert its ticker into running_backtests: its first scheduled turn. -/
def run_next_spawned (st : BtState) : BtState :=
  match st.spawned with
  | [] => st
  | t :: rest =>
    { st with running_backtests := t :: st.running_backtests, spawned := rest }

/-- Events of the cooperative (asyncio) interleaving: a handler turn serving
one start request, or the event loop giving the oldest spawned task its first
turn. -/
inductive BtEvent where
  | request (ticker : String)
  | task_turn
deriving DecidableEq, Repr

def bt_step (st : BtState) (e : BtEvent) : BtState :=
  match e with
  | BtEvent.request t => handle_start_request st t
  | BtEvent.task_turn => run_next_spawned st

/-- Run a schedule of cooperative events. -/
def bt_run (st : BtState) (events : List BtEvent) : BtState :=
  events.foldl bt_step st

def initBtState : BtState :=
  { running_backtests := [], spawned := [], replies := [] }

/-! ## C3 -/

/-- C3: refuted on the code.  Two concurrent start requests for "AAPL" whose
handler turns both run before either spawned task's first turn (a legal
asyncio schedule, since asyncio.create_task does not run the task inside the
handler turn) are both accepted: both clients are told the backtest started
and two runs for "AAPL" end up in the active-run set.  The
already-running rejection only helps once the spawned task has run. -/
theorem C3_concurrent_start_race :
    (bt_run initBtState
      [BtEvent.request "AAPL", BtEvent.request "AAPL",
       BtEvent.task_turn, BtEvent.task_turn]).replies
      = [BtReply.started, BtReply.started] ∧
    (bt_run initBtState
      [BtEvent.request "AAPL", BtEvent.request "AAPL",
       BtEvent.task_turn, BtEvent.task_turn]).running_backtests
      = ["AAPL", "AAPL"] := by
  refine ⟨by decide, by decide⟩

/-! ## C9 -/

/-- A brokerage client whose get_all_positions succeeds (reporting no open
positions) and whose get_account call raises. -/
def clientC9 : TradingClient :=
  { get_all_positions := Except.ok [],
    get_account := Except.error (),
    close_position_call := fun _ => Except.error () }

/-- C9: counterexample.  With one tracked position and a brokerage whose
get_all_positions succeeds (reporting none) but whose get_account raises, the
live update_positions catches the exception and reports no action (empty
result) — yet the position map was already rewritten to empty before the
failing call, so the operation does not leave the engine state unchanged. -/
theorem C9_counterexample :
    (update_positions_live clientC9 pmC1 0).1.positions = [] ∧
    pmC1.positions ≠ [] ∧
    (update_positions_live clientC9 pmC1 0).2 = [] := by
  refine ⟨by decide, by decide, by decide⟩

/-- C9 amended: a brokerage exception never propagates and the two operations
are unchanged-state up to the calls already completed: if the brokerage
close_position call raises, close_position returns None with the manager state
(pending_closes included) untouched; and if the initial get_all_positions call
of update_positions raises, the whole operation is a no-op returning the empty
dict.  (A raise later in update_positions, after the position sync, retains
the already-applied rewrite, as the counterexample shows.) -/
theorem C9_error_paths_leave_state_unchanged (client : TradingClient) (pm : PM)
    (ticker : String) (now : ℤ) :
    (client.close_position_call ticker = Except.error () →
      close_position_live client pm ticker = (none, pm)) ∧
    (client.get_all_positions = Except.error () →
      update_positions_live client pm now = (pm, [])) := by
  constructor
  · intro herr
    unfold close_position_live
    split_ifs with h1 h2
    · rfl
    · rfl
    · rw [herr]
  · intro herr
    unfold update_positions_live
    rw [herr]

/-- A brokerage client all of whose calls raise. -/
def clientW9 : TradingClient :=
  { get_all_positions := Except.error (),
    get_account := Except.error (),
    close_position_call := fun _ => Except.error () }

/-- Witness for C9 amended at a concrete failing client and state. -/
theorem C9_error_paths_leave_state_unchanged_witness :
    close_position_live clientW9 pmC1 "AAPL" = (none, pmC1) ∧
    update_positions_live clientW9 pmC1 0 = (pmC1, []) :=
  ⟨(C9_error_paths_leave_state_unchanged clientW9 pmC1 "AAPL" 0).1 rfl,
   (C9_error_paths_leave_state_unchanged clientW9 pmC1 "AAPL" 0).2 rfl⟩

/-- C4 amended: for BUY requests on a ticker with an existing active position,
calculate_target_position never allows the trade when that position's exposure
is already at or above the target percentage; the zero-share clause of the
claim fails (see the counterexample: allow = true with share count 0 whenever
the target position value is smaller than the share price). -/
theorem C4_buy_at_target_refused (pm : PM) (ticker : String) (price : ℚ)
    (target_pct : Option ℚ) (cp : Position)
    (hcp : lookupPos (active_positions pm) ticker = some cp)
    (hallow : (calculate_target_position pm ticker price OrderSide.buy target_pct).2 = true) :
    cp.get_exposure pm.equity < target_pct.getD max_position_size := by
  simp only [calculate_target_position, get_backtest_account_info, hcp] at hallow
  split_ifs at hallow with h1 h2 h3 h4
  simp_all [not_le]

/-- An open long position of 10 AAPL shares at 50 (exposure well below 8%). -/
def posC4 : Position :=
  { ticker := "AAPL", qty := 10, entry_price := 50, current_price := 50,
    side := OrderSide.buy, entry_time := 0, is_open := true, pl := 0, pl_pct := 0 }

/-- A simulated account with equity 30000 holding posC4. -/
def pmC4 : PM :=
  { positions := [("AAPL", posC4)], pending_closes := [], cash_balance := 29500,
    equity := 30000, unrealized_pnl := 0 }

/-- Witness for C4 amended at a concrete allowed BUY add. -/
theorem C4_buy_at_target_refused_witness :
    posC4.get_exposure pmC4.equity < (none : Option ℚ).getD max_position_size :=
  C4_buy_at_target_refused pmC4 "AAPL" 50 none posC4 (by decide) (by decide)

/-- C5 amended: a SELL request for a ticker with no existing active position is
refused — allow = false, so no short is opened — but the refusal does not
return exactly (0, false): the share component is the computed target share
count, truncate(equity * target_pct / price). -/
theorem C5_sell_no_position_refused (pm : PM) (ticker : String) (price : ℚ)
    (target_pct : Option ℚ)
    (hnone : lookupPos (active_positions pm) ticker = none) :
    calculate_target_position pm ticker price OrderSide.sell target_pct
      = (ratTrunc (pm.equity * target_pct.getD max_position_size / price), false) := by
  simp [calculate_target_position, get_backtest_account_info, hnone]

/-- Witness for C5 amended at the fresh account. -/
theorem C5_sell_no_position_refused_witness :
    calculate_target_position initPM "AAPL" 50 OrderSide.sell none
      = (ratTrunc (initPM.equity * (none : Option ℚ).getD max_position_size / 50), false) :=
  C5_sell_no_position_refused initPM "AAPL" 50 none (by decide)

/-! ## StrategyHandler.generate_signals (C8, C10)

The time-series type, the data store and the strategy implementations are
external collaborators: the embedding is parametric in a data type, a
per-ticker data fetch, the pandas emptiness test, and the registered strategy
list (in registration order). -/

/-- The per-strategy contribution for a ticker: the signal it generates, kept
only when it is not None and its action is not None
(strategy_handler.py line 51). -/
def produced {δ : Type} (strat : String → δ → Option Signal) (ticker : String)
    (d : δ) : Option Signal :=
  match strat ticker d with
  | some s => if s.action.isSome then some s else none
  | none => none

/-- The signal of the last strategy, in registration order, that produced a
kept signal for the ticker. -/
def lastSignal {δ : Type} (strategies : List (String → δ → Option Signal))
    (ticker : String) (d : δ) : Option Signal :=
  (strategies.filterMap (fun strat => produced strat ticker d)).getLast?

/-- Python dict assignment signal_data[ticker] = signal, on the result mapping. -/
def dict_insert (m : String → Option Signal) (k : String) (v : Signal) :
    String → Option Signal :=
  fun t => if t = k then some v else m t

/-- One iteration of the inner strategy loop (strategy_handler.py lines
47-53): skipped entirely when the ticker's data frame is empty. -/
def inner_step {δ : Type} (isEmptyD : δ → Bool) (ticker : String) (d : δ)
    (acc : String → Option Signal) (strat : String → δ → Option Signal) :
    String → Option Signal :=
  if isEmptyD d then acc
  else
    match produced strat ticker d with
    | some s => dict_insert acc ticker s
    | none => acc

/-- One iteration of the outer ticker loop (strategy_handler.py lines 35-53):
the ticker "VXX" is skipped before any data fetch or strategy runs. -/
def outer_step {δ : Type} (getData : String → δ) (isEmptyD : δ → Bool)
    (strategies : List (String → δ → Option Signal))
    (acc : String → Option Signal) (ticker : String) : String → Option Signal :=
  if ticker = "VXX" then acc
  else strategies.foldl (inner_step isEmptyD ticker (getData ticker)) acc

/-- StrategyHandler.generate_signals (strategy_handler.py lines 32-55),
returning the signal_data mapping. -/
def generate_signals {δ : Type} (tickers : List String) (getData : String → δ)
    (isEmptyD : δ → Bool) (strategies : List (String → δ → Option Signal)) :
    String → Option Signal :=
  tickers.foldl (outer_step getData isEmptyD strategies) (fun _ => none)

theorem dict_insert_insert (m : String → Option Signal) (k : String)
    (v w : Signal) : dict_insert (dict_insert m k v) k w = dict_insert m k w := by
  funext t
  unfold dict_insert
  split_ifs <;> rfl

theorem inner_fold_eq {δ : Type} (isEmptyD : δ → Bool) (ticker : String) (d : δ)
    (strategies : List (String → δ → Option Signal)) (acc : String → Option Signal) :
    strategies.foldl (inner_step isEmptyD ticker d) acc
      = if isEmptyD d then acc
        else
          match lastSignal strategies ticker d with
          | some s => dict_insert acc ticker s
          | none => acc := by
  induction strategies generalizing acc with
  | nil =>
    cases h : isEmptyD d <;> simp [lastSignal, h]
  | cons f fs ih =>
    rw [List.foldl_cons, ih]
    cases hE : isEmptyD d with
    | true => simp [inner_step, hE]
    | false =>
      simp only [inner_step, hE, Bool.false_eq_true, if_false]
      cases hp : produced f ticker d with
      | none =>
        simp [lastSignal, List.filterMap_cons, hp]
      | some s =>
        cases hl : (fs.filterMap (fun strat => produced strat ticker d)) with
        | nil =>
          simp [lastSignal, List.filterMap_cons, hp, hl]
        | cons b bs =>
          simp only [lastSignal, List.filterMap_cons, hp, hl,
            List.getLast?_cons_cons]
          cases hg : (b :: bs).getLast? with
          | none => simp at hg
          | some s' => simp [dict_insert_insert]

theorem outer_step_at {δ : Type} (getData : String → δ) (isEmptyD : δ → Bool)
    (strategies : List (String → δ → Option Signal))
    (acc : String → Option Signal) (h t : String) :
    (outer_step getData isEmptyD strategies acc h) t
      = if t = h ∧ h ≠ "VXX" ∧ isEmptyD (getData h) = false ∧
            (lastSignal strategies h (getData h)).isSome
        then lastSignal strategies h (getData h)
        else acc t := by
  unfold outer_step
  by_cases hv : h = "VXX"
  · simp [hv]
  · rw [if_neg hv, inner_fold_eq]
    cases hE : isEmptyD (getData h) with
    | true => simp [hE]
    | false =>
      cases hl : lastSignal strategies h (getData h) with
      | none => simp [hl, hE]
      | some s =>
        simp only [hl, hE]
        by_cases ht : t = h
        · subst ht
          simp [dict_insert, hv]
        · simp [dict_insert, ht, hv]

theorem outer_fold_at {δ : Type} (getData : String → δ) (isEmptyD : δ → Bool)
    (strategies : List (String → δ → Option Signal)) (tickers : List String)
    (acc : String → Option Signal) (t : String) :
    (tickers.foldl (outer_step getData isEmptyD strategies) acc) t
      = if t ∈ tickers ∧ t ≠ "VXX" ∧ isEmptyD (getData t) = false ∧
            (lastSignal strategies t (getData t)).isSome
        then lastSignal strategies t (getData t)
        else acc t := by
  induction tickers generalizing acc with
  | nil => simp
  | cons h hs ih =>
    rw [List.foldl_cons, ih, outer_step_at]
    by_cases hmem : t ∈ hs ∧ t ≠ "VXX" ∧ isEmptyD (getData t) = false ∧
        (lastSignal strategies t (getData t)).isSome
    · rw [if_pos hmem, if_pos ⟨List.mem_cons_of_mem h hmem.1, hmem.2⟩]
    · rw [if_neg hmem]
      by_cases ht : t = h
      · subst ht
        by_cases hc : t ≠ "VXX" ∧ isEmptyD (getData t) = false ∧
            (lastSignal strategies t (getData t)).isSome
        · rw [if_pos ⟨rfl, hc⟩, if_pos ⟨List.mem_cons_self t hs, hc⟩]
        · rw [if_neg (fun hx => hc hx.2), if_neg (fun hx => hc hx.2)]
      · rw [if_neg (fun hx => ht hx.1)]
        by_cases hin : t ∈ h :: hs ∧ t ≠ "VXX" ∧ isEmptyD (getData t) = false ∧
            (lastSignal strategies t (getData t)).isSome
        · exact absurd ⟨(List.mem_cons.mp hin.1).resolve_left ht, hin.2⟩ hmem
        · rw [if_neg hin]

theorem gs_spec {δ : Type} (tickers : List String) (getData : String → δ)
    (isEmptyD : δ → Bool) (strategies : List (String → δ → Option Signal))
    (t : String) :
    generate_signals tickers getData isEmptyD strategies t
      = if t ∈ tickers ∧ t ≠ "VXX" ∧ isEmptyD (getData t) = false
        then lastSignal strategies t (getData t)
        else none := by
  unfold generate_signals
  rw [outer_fold_at]
  by_cases hs : (lastSignal strategies t (getData t)).isSome
  · by_cases hc : t ∈ tickers ∧ t ≠ "VXX" ∧ isEmptyD (getData t) = false
    · rw [if_pos ⟨hc.1, hc.2.1, hc.2.2, hs⟩, if_pos hc]
    · rw [if_neg (fun hx => hc ⟨hx.1, hx.2.1, hx.2.2.1⟩), if_neg hc]
  · rw [Option.not_isSome_iff_eq_none] at hs
    rw [if_neg (fun hx => by simp [hs] at hx)]
    rw [hs]
    split <;> rfl

/-! ## C8 -/

/-- A strategy output with a non-empty (BUY) action. -/
def sigBuy : Signal :=
  { strategy := "support_resistance", ticker := "VXX", price := 1,
    action := some "buy", score := none, momentum := none }

/-- C8: counterexample.  With "VXX" configured, non-empty data (the emptiness
test is constantly false) and a registered strategy that produces a signal
with a non-empty action for every ticker, generate_signals still omits "VXX":
the ticker is skipped before any strategy runs, refuting the claimed
if-and-only-if characterisation of the result's keys. -/
theorem C8_counterexample :
    generate_signals ["VXX"] (fun _ => ()) (fun _ => false)
      [fun _ _ => some sigBuy] "VXX" = none ∧
    produced (fun (_ : String) (_ : Unit) => some sigBuy) "VXX" () = some sigBuy ∧
    (fun (_ : Unit) => false) () = false :=
  ⟨rfl, rfl, rfl⟩

/-- C8 amended: the mapping returned by generate_signals contains a ticker if
and only if it is configured, is not "VXX", its time-series data is non-empty
and at least one registered strategy produced a signal with a non-empty
action; the value is the signal of the last such strategy in registration
order.  (lastSignal is exactly that last kept signal, and is none when no
strategy produced one.) -/
theorem C8_last_nonempty_signal_wins {δ : Type} (tickers : List String)
    (getData : String → δ) (isEmptyD : δ → Bool)
    (strategies : List (String → δ → Option Signal)) (t : String) :
    generate_signals tickers getData isEmptyD strategies t
      = if t ∈ tickers ∧ t ≠ "VXX" ∧ isEmptyD (getData t) = false
        then lastSignal strategies t (getData t)
        else none :=
  gs_spec tickers getData isEmptyD strategies t

/-! ## C10 -/

/-- C10: confirmed.  For every configured ticker list, data store, emptiness
test and registered strategy list, the mapping returned by generate_signals
never contains the key "VXX": the ticker is unconditionally skipped before any
strategy is evaluated. -/
theorem C10_vxx_never_in_result {δ : Type} (tickers : List String)
    (getData : String → δ) (isEmptyD : δ → Bool)
    (strategies : List (String → δ → Option Signal)) :
    generate_signals tickers getData isEmptyD strategies "VXX" = none := by
  rw [gs_spec]
  simp
